import Mathlib

/-!
Shallow embedding of `GPy/likelihoods/likelihood_functions.py` (class
`LikelihoodFunction`), the EP/Laplace likelihood-approximation engine.

The external collaborators (the concrete likelihood "mass" model, the
Newton-CG minimizer `scipy.optimize.fmin_ncg`, and the normal quantile
function `scipy.stats.norm.ppf`) are modelled as abstract parameters bundled
with the object: the core code under verification only calls them through
their interfaces.  `scipy.stats.norm.ppf(p, loc, scale)` is the location-scale
transform `loc + scale * ppf(p)` of the standard-normal quantile, which is how
`normPpf` is defined below from an abstract standard quantile `stdPpf`.

Machine floats are modelled by real numbers; `np.sqrt`, `np.exp`, `np.log`
become `Real.sqrt`, `Real.exp`, `Real.log`.
-/

namespace GPy

/-- The numerical-dispatch state of a `LikelihoodFunction` object: the
capability surface of the external mass model (density, negative log density
and its partial derivatives, conditional mean/variance and their derivatives,
the `discrete` flag) together with the external numerical primitives
(`minimize` models `scipy.optimize.fmin_ncg(f, x0, fprime, fhess)`;
`stdPpf` models the standard-normal quantile underlying
`scipy.stats.norm.ppf`).  All two-argument functions take `(gp, obs)`. -/
structure LikelihoodFunction where
  mass : ℝ → ℝ → ℝ
  nlog_mass : ℝ → ℝ → ℝ
  dnlog_mass_dgp : ℝ → ℝ → ℝ
  d2nlog_mass_dgp2 : ℝ → ℝ → ℝ
  dnlog_mass_dobs : ℝ → ℝ → ℝ
  d2nlog_mass_dobs2 : ℝ → ℝ → ℝ
  d2nlog_mass_dcross : ℝ → ℝ → ℝ
  mean : ℝ → ℝ
  dmean_dgp : ℝ → ℝ
  d2mean_dgp2 : ℝ → ℝ
  variance : ℝ → ℝ
  dvariance_dgp : ℝ → ℝ
  d2variance_dgp2 : ℝ → ℝ
  discrete : Bool
  minimize : (ℝ → ℝ) → (ℝ → ℝ) → (ℝ → ℝ) → ℝ → ℝ
  stdPpf : ℝ → ℝ

/-- Models `scipy.stats.norm.ppf(p, loc, scale) = loc + scale * Phi_inv(p)`:
location-scale semantics of the external normal quantile primitive. -/
noncomputable def normPpf (c : LikelihoodFunction) (p loc scale : ℝ) : ℝ :=
  loc + scale * c.stdPpf p

/-- Embeds `_nlog_product_scaled(gp, obs, mu, sigma)`:
`.5*((gp-mu)/sigma)**2 + self._nlog_mass(gp,obs)`. -/
noncomputable def nlog_product_scaled (c : LikelihoodFunction)
    (gp obs mu sigma : ℝ) : ℝ :=
  1/2 * ((gp - mu)/sigma)^2 + c.nlog_mass gp obs

/-- Embeds `_dnlog_product_dgp(gp, obs, mu, sigma)`:
`(gp - mu)/sigma**2 + self._dnlog_mass_dgp(gp,obs)`. -/
noncomputable def dnlog_product_dgp (c : LikelihoodFunction)
    (gp obs mu sigma : ℝ) : ℝ :=
  (gp - mu)/sigma^2 + c.dnlog_mass_dgp gp obs

/-- Embeds `_d2nlog_product_dgp2(gp, obs, mu, sigma)`:
`1./sigma**2 + self._d2nlog_mass_dgp2(gp,obs)`. -/
noncomputable def d2nlog_product_dgp2 (c : LikelihoodFunction)
    (gp obs mu sigma : ℝ) : ℝ :=
  1/sigma^2 + c.d2nlog_mass_dgp2 gp obs

/-- Embeds `_product_mode(obs, mu, sigma)`: Newton-CG search on the tilted-product
objective, started at `mu`, with the exact gradient and Hessian callbacks. -/
noncomputable def product_mode (c : LikelihoodFunction)
    (obs mu sigma : ℝ) : ℝ :=
  c.minimize (fun g => nlog_product_scaled c g obs mu sigma)
    (fun g => dnlog_product_dgp c g obs mu sigma)
    (fun g => d2nlog_product_dgp2 c g obs mu sigma) mu

/-- Embeds `_moments_match_numerical(obs, tau, v)`: Laplace approximation to the
tilted moments.  Returns `(Z_hat, mu_hat, sigma2_hat)`. -/
noncomputable def moments_match_numerical (c : LikelihoodFunction)
    (obs tau v : ℝ) : ℝ × ℝ × ℝ :=
  let mu := v/tau
  let mu_hat := product_mode c obs mu (Real.sqrt (1/tau))
  let sigma2_hat := 1/(tau + c.d2nlog_mass_dgp2 mu_hat obs)
  let Z_hat := Real.exp (-(1/2) * tau * (mu_hat - mu)^2) * c.mass mu_hat obs *
    Real.sqrt (tau * sigma2_hat)
  (Z_hat, mu_hat, sigma2_hat)

/-- Embeds `_nlog_conditional_mean_scaled(gp, mu, sigma)`:
`.5*((gp - mu)/sigma)**2 - np.log(self._mean(gp))`. -/
noncomputable def nlog_conditional_mean_scaled (c : LikelihoodFunction)
    (gp mu sigma : ℝ) : ℝ :=
  1/2 * ((gp - mu)/sigma)^2 - Real.log (c.mean gp)

/-- Embeds `_dnlog_conditional_mean_dgp(gp, mu, sigma)`. -/
noncomputable def dnlog_conditional_mean_dgp (c : LikelihoodFunction)
    (gp mu sigma : ℝ) : ℝ :=
  (gp - mu)/sigma^2 - c.dmean_dgp gp / c.mean gp

/-- Embeds `_d2nlog_conditional_mean_dgp2(gp, mu, sigma)`. -/
noncomputable def d2nlog_conditional_mean_dgp2 (c : LikelihoodFunction)
    (gp mu sigma : ℝ) : ℝ :=
  1/sigma^2 - c.d2mean_dgp2 gp / c.mean gp + (c.dmean_dgp gp / c.mean gp)^2

/-- Embeds `_nlog_exp_conditional_variance_scaled(gp, mu, sigma)`. -/
noncomputable def nlog_exp_conditional_variance_scaled (c : LikelihoodFunction)
    (gp mu sigma : ℝ) : ℝ :=
  1/2 * ((gp - mu)/sigma)^2 - Real.log (c.variance gp)

/-- Embeds `_dnlog_exp_conditional_variance_dgp(gp, mu, sigma)`. -/
noncomputable def dnlog_exp_conditional_variance_dgp (c : LikelihoodFunction)
    (gp mu sigma : ℝ) : ℝ :=
  (gp - mu)/sigma^2 - c.dvariance_dgp gp / c.variance gp

/-- Embeds `_d2nlog_exp_conditional_variance_dgp2(gp, mu, sigma)`. -/
noncomputable def d2nlog_exp_conditional_variance_dgp2 (c : LikelihoodFunction)
    (gp mu sigma : ℝ) : ℝ :=
  1/sigma^2 - c.d2variance_dgp2 gp / c.variance gp +
    (c.dvariance_dgp gp / c.variance gp)^2

/-- Embeds `_nlog_exp_conditional_mean_sq_scaled(gp, mu, sigma)`:
`.5*((gp - mu)/sigma)**2 - 2*np.log(self._mean(gp))`. -/
noncomputable def nlog_exp_conditional_mean_sq_scaled (c : LikelihoodFunction)
    (gp mu sigma : ℝ) : ℝ :=
  1/2 * ((gp - mu)/sigma)^2 - 2 * Real.log (c.mean gp)

/-- Embeds `_dnlog_exp_conditional_mean_sq_dgp(gp, mu, sigma)`. -/
noncomputable def dnlog_exp_conditional_mean_sq_dgp (c : LikelihoodFunction)
    (gp mu sigma : ℝ) : ℝ :=
  (gp - mu)/sigma^2 - 2 * c.dmean_dgp gp / c.mean gp

/-- Embeds `_d2nlog_exp_conditional_mean_sq_dgp2(gp, mu, sigma)`:
`1./sigma**2 - 2*( d2mean/mean - (dmean/mean)**2 )`. -/
noncomputable def d2nlog_exp_conditional_mean_sq_dgp2 (c : LikelihoodFunction)
    (gp mu sigma : ℝ) : ℝ :=
  1/sigma^2 - 2 * (c.d2mean_dgp2 gp / c.mean gp - (c.dmean_dgp gp / c.mean gp)^2)

/-- Embeds `_predictive_mean_numerical(mu, sigma)`: mode-find the conditional-mean
objective starting from `self._mean(mu)`, then the Laplace integral
`exp(-nlog(max)) / (sqrt(d2nlog(max)) * sigma)`.  (The commented-out plotting
block in the source is a no-op and is omitted.) -/
noncomputable def predictive_mean_numerical (c : LikelihoodFunction)
    (mu sigma : ℝ) : ℝ :=
  let maximum := c.minimize (fun g => nlog_conditional_mean_scaled c g mu sigma)
    (fun g => dnlog_conditional_mean_dgp c g mu sigma)
    (fun g => d2nlog_conditional_mean_dgp2 c g mu sigma) (c.mean mu)
  Real.exp (-nlog_conditional_mean_scaled c maximum mu sigma) /
    (Real.sqrt (d2nlog_conditional_mean_dgp2 c maximum mu sigma) * sigma)

/-- Embeds `_predictive_mean_sq(mu, sigma)`: same pattern over the squared-mean
objective, started from `self._mean(mu)`. -/
noncomputable def predictive_mean_sq (c : LikelihoodFunction)
    (mu sigma : ℝ) : ℝ :=
  let maximum := c.minimize
    (fun g => nlog_exp_conditional_mean_sq_scaled c g mu sigma)
    (fun g => dnlog_exp_conditional_mean_sq_dgp c g mu sigma)
    (fun g => d2nlog_exp_conditional_mean_sq_dgp2 c g mu sigma) (c.mean mu)
  Real.exp (-nlog_exp_conditional_mean_sq_scaled c maximum mu sigma) /
    (Real.sqrt (d2nlog_exp_conditional_mean_sq_dgp2 c maximum mu sigma) * sigma)

/-- Embeds `predictive_variance(mu, sigma, predictive_mean=None)`:
`exp_var + (exp_exp2 - predictive_mean**2)` where `exp_var` is the Laplace
integral of the conditional-variance objective; when `predictive_mean` is
`None` the numerically-dispatched `self.predictive_mean` is called.  (The
in-place `pylab` plotting statements in the source draw diagnostics and do not
affect the returned value; they are omitted.) -/
noncomputable def predictive_variance (c : LikelihoodFunction)
    (mu sigma : ℝ) (pm? : Option ℝ) : ℝ :=
  let maximum := c.minimize
    (fun g => nlog_exp_conditional_variance_scaled c g mu sigma)
    (fun g => dnlog_exp_conditional_variance_dgp c g mu sigma)
    (fun g => d2nlog_exp_conditional_variance_dgp2 c g mu sigma) (c.variance mu)
  let exp_var := Real.exp (-nlog_exp_conditional_variance_scaled c maximum mu sigma) /
    (Real.sqrt (d2nlog_exp_conditional_variance_dgp2 c maximum mu sigma) * sigma)
  let exp_exp2 := predictive_mean_sq c mu sigma
  let pm := match pm? with
    | none => predictive_mean_numerical c mu sigma
    | some p => p
  let var_exp := exp_exp2 - pm^2
  exp_var + var_exp

/-- A 2x2 matrix of reals, row-major, mirroring
`np.array((a,b,c,d)).reshape(2,2)`. -/
structure Mat2 where
  m00 : ℝ
  m01 : ℝ
  m10 : ℝ
  m11 : ℝ

/-- Embeds `_gradient_nlog_joint_predictive(x, mu, sigma)`: asserts the output model
is not discrete, then returns the 2-vector
`(dnlog_product_dgp(x[0], x[1], mu, sigma), dnlog_mass_dobs(x[0], x[1]))`.
The failed `assert` is modelled as `Except.error` with the assertion
message. -/
noncomputable def gradient_nlog_joint_predictive (c : LikelihoodFunction)
    (x : ℝ × ℝ) (mu sigma : ℝ) : Except String (ℝ × ℝ) :=
  if c.discrete then
    Except.error "Gradient not available for discrete outputs."
  else
    Except.ok (dnlog_product_dgp c x.1 x.2 mu sigma, c.dnlog_mass_dobs x.1 x.2)

/-- Embeds `_hessian_nlog_joint_predictive(x, mu, sigma)`: asserts the output model
is not discrete, computes `cross_derivative = d2nlog_mass_dcross(x[0], x[1])`
once, and returns
`np.array((d2nlog_product_dgp2, cross, cross, d2nlog_mass_dobs2)).reshape(2,2)`. -/
noncomputable def hessian_nlog_joint_predictive (c : LikelihoodFunction)
    (x : ℝ × ℝ) (mu sigma : ℝ) : Except String Mat2 :=
  if c.discrete then
    Except.error "Hessian not available for discrete outputs."
  else
    let cross_derivative := c.d2nlog_mass_dcross x.1 x.2
    Except.ok ⟨d2nlog_product_dgp2 c x.1 x.2 mu sigma, cross_derivative,
      cross_derivative, c.d2nlog_mass_dobs2 x.1 x.2⟩

/-- The `mu`/`var` argument of `predictive_values`: either a scalar pair
(the `isinstance(mu, float) or isinstance(mu, int)` branch) or parallel
sequences of cavity means and variances. -/
inductive PVInput where
  | scalar (mu var : ℝ)
  | vector (mu var : List ℝ)

/-- One iteration of the loop body of `predictive_values` at the cavity pair
`(m, s)` (with `s = sqrt(var)`): appends
`predictive_mean(m, s)`, `predictive_variance(m, s, pred_mean[-1])`,
`predictive_mean(stats.norm.ppf(.025, m, s**2), s)` and
`predictive_mean(stats.norm.ppf(.975, m, s**2), s)`. -/
noncomputable def pv_entry (c : LikelihoodFunction) (m s : ℝ) : ℝ × ℝ × ℝ × ℝ :=
  let pm := predictive_mean_numerical c m s
  (pm, predictive_variance c m s (some pm),
    predictive_mean_numerical c (normPpf c (25/1000) m (s^2)) s,
    predictive_mean_numerical c (normPpf c (975/1000) m (s^2)) s)

/-- Models `np.array(l)[:,None]`: reshape a length-`N` sequence into an `N x 1`
column. -/
def col (l : List ℝ) : List (List ℝ) :=
  l.map (fun x => [x])

/-- Embeds `predictive_values(mu, var, sample=True, sample_size=5000)`: wrap scalar
input into length-1 lists, iterate over `zip(mu, np.sqrt(var))`, and return
the four accumulated sequences each reshaped as an `N x 1` column.
`sample` and `sample_size` are accepted and ignored, as in the source. -/
noncomputable def predictive_values (c : LikelihoodFunction) (inp : PVInput)
    (sample : Bool) (sample_size : ℕ) :
    List (List ℝ) × List (List ℝ) × List (List ℝ) × List (List ℝ) :=
  let pairs := match inp with
    | .scalar m v => List.zip [m] (List.map Real.sqrt [v])
    | .vector ms vs => List.zip ms (List.map Real.sqrt vs)
  let rows := pairs.map (fun p => pv_entry c p.1 p.2)
  (col (rows.map (fun r => r.1)),
    col (rows.map (fun r => r.2.1)),
    col (rows.map (fun r => r.2.2.1)),
    col (rows.map (fun r => r.2.2.2)))

/-- A concrete instantiation of the external capability surface used to
exercise the theorems: unit mass, flat negative-log-mass, unit conditional
mean and variance, a minimizer that returns its starting point, continuous
outputs. -/
noncomputable def testModel : LikelihoodFunction where
  mass := fun _ _ => 1
  nlog_mass := fun _ _ => 0
  dnlog_mass_dgp := fun _ _ => 0
  d2nlog_mass_dgp2 := fun _ _ => 0
  dnlog_mass_dobs := fun _ _ => 0
  d2nlog_mass_dobs2 := fun _ _ => 0
  d2nlog_mass_dcross := fun _ _ => 0
  mean := fun _ => 1
  dmean_dgp := fun _ => 0
  d2mean_dgp2 := fun _ => 0
  variance := fun _ => 1
  dvariance_dgp := fun _ => 0
  d2variance_dgp2 := fun _ => 0
  discrete := false
  minimize := fun _ _ _ x0 => x0
  stdPpf := fun _ => 0

/-- Variant of `testModel` with the `discrete` capability flag raised. -/
noncomputable def testModelDiscrete : LikelihoodFunction :=
  { testModel with discrete := true }

/-- Indexing the zipped pair list of `predictive_values`: if the cavity means
and variances hold `m` and `v` at position `i`, the zipped list holds
`(m, sqrt v)` there. -/
lemma zip_map_sqrt_get (ms vs : List ℝ) (i : ℕ) (m v : ℝ)
    (hm : ms[i]? = some m) (hv : vs[i]? = some v) :
    (List.zip ms (List.map Real.sqrt vs))[i]? = some (m, Real.sqrt v) := by
  induction ms generalizing vs i with
  | nil => simp at hm
  | cons a as ih =>
    cases vs with
    | nil => simp at hv
    | cons b bs =>
      cases i with
      | zero =>
        simp only [List.getElem?_cons_zero, Option.some.injEq] at hm hv
        simp [hm, hv]
      | succ j =>
        simp only [List.getElem?_cons_succ] at hm hv
        simpa using ih bs j hm hv

/-- C5: for every input pair, cavity mean and standard deviation, whenever
`_hessian_nlog_joint_predictive` returns a matrix (the non-discrete case), the
two off-diagonal entries of that matrix are identical: both are the single
`cross_derivative` value. -/
theorem hessian_offdiag_symm (c : LikelihoodFunction) (x : ℝ × ℝ)
    (mu sigma : ℝ) (H : Mat2)
    (h : hessian_nlog_joint_predictive c x mu sigma = Except.ok H) :
    H.m01 = H.m10 := by
  unfold hessian_nlog_joint_predictive at h
  by_cases hd : c.discrete
  · rw [if_pos hd] at h
    exact absurd h (by simp)
  · rw [if_neg hd] at h
    simp only [Except.ok.injEq] at h
    rw [← h]

/-- Witness for C5 at a concrete non-discrete model and input. -/
theorem hessian_offdiag_symm_witness :
    (Mat2.mk (1/(1:ℝ)^2 + 0) 0 0 0).m01 = (Mat2.mk (1/(1:ℝ)^2 + 0) 0 0 0).m10 :=
  hessian_offdiag_symm testModel (0, 0) 0 1 (Mat2.mk (1/(1:ℝ)^2 + 0) 0 0 0) rfl

/-- C6: the joint-predictive gradient and Hessian return the
discrete-unsupported assertion error exactly when the mass model's `discrete`
flag is set, and return a numeric result exactly when it is not. -/
theorem joint_predictive_discrete_guard (c : LikelihoodFunction)
    (x : ℝ × ℝ) (mu sigma : ℝ) :
    ((gradient_nlog_joint_predictive c x mu sigma =
        Except.error "Gradient not available for discrete outputs.") ↔
      c.discrete = true) ∧
    ((hessian_nlog_joint_predictive c x mu sigma =
        Except.error "Hessian not available for discrete outputs.") ↔
      c.discrete = true) ∧
    ((∃ g, gradient_nlog_joint_predictive c x mu sigma = Except.ok g) ↔
      c.discrete = false) ∧
    ((∃ H, hessian_nlog_joint_predictive c x mu sigma = Except.ok H) ↔
      c.discrete = false) := by
  by_cases hd : c.discrete <;>
    simp [gradient_nlog_joint_predictive, hessian_nlog_joint_predictive, hd]

/-- C7: on a sequence of `N` cavity pairs, all four outputs of
`predictive_values` are `N x 1` columns of length `N`, and entry `i` of each
output is computed from input pair `i`. -/
theorem predictive_values_length_order (c : LikelihoodFunction)
    (ms vs : List ℝ) (sample : Bool) (n : ℕ) (hlen : vs.length = ms.length) :
    ((predictive_values c (.vector ms vs) sample n).1.length = ms.length ∧
     (predictive_values c (.vector ms vs) sample n).2.1.length = ms.length ∧
     (predictive_values c (.vector ms vs) sample n).2.2.1.length = ms.length ∧
     (predictive_values c (.vector ms vs) sample n).2.2.2.length = ms.length) ∧
    ∀ (i : ℕ) (m v : ℝ), ms[i]? = some m → vs[i]? = some v →
      ((predictive_values c (.vector ms vs) sample n).1[i]? =
          some [(pv_entry c m (Real.sqrt v)).1] ∧
       (predictive_values c (.vector ms vs) sample n).2.1[i]? =
          some [(pv_entry c m (Real.sqrt v)).2.1] ∧
       (predictive_values c (.vector ms vs) sample n).2.2.1[i]? =
          some [(pv_entry c m (Real.sqrt v)).2.2.1] ∧
       (predictive_values c (.vector ms vs) sample n).2.2.2[i]? =
          some [(pv_entry c m (Real.sqrt v)).2.2.2]) := by
  constructor
  · simp [predictive_values, col, hlen]
  · intro i m v hm hv
    have hz := zip_map_sqrt_get ms vs i m v hm hv
    simp [predictive_values, col, List.getElem?_map, hz]

/-- Witness for C7 on the length-1 input `mu = [1]`, `var = [4]`. -/
theorem predictive_values_length_order_witness :
    (predictive_values testModel (PVInput.vector [1] [4]) true 5000).1.length = 1 ∧
    (predictive_values testModel (PVInput.vector [1] [4]) true 5000).1[0]? =
      some [(pv_entry testModel 1 (Real.sqrt 4)).1] := by
  have h := predictive_values_length_order testModel [1] [4] true 5000 rfl
  exact ⟨h.1.1, (h.2 0 1 4 rfl rfl).1⟩

/-- C8: `predictive_values` on a scalar cavity pair returns exactly the same
four outputs as on the length-1 sequences holding that pair. -/
theorem predictive_values_scalar_singleton (c : LikelihoodFunction)
    (m v : ℝ) (sample : Bool) (n : ℕ) :
    predictive_values c (.scalar m v) sample n =
      predictive_values c (.vector [m] [v]) sample n := rfl

/-- C10: the `sample` and `sample_size` keyword arguments have no influence on
any of the four outputs of `predictive_values`. -/
theorem predictive_values_sample_noninterference (c : LikelihoodFunction)
    (inp : PVInput) (s1 : Bool) (n1 : ℕ) (s2 : Bool) (n2 : ℕ) :
    predictive_values c inp s1 n1 = predictive_values c inp s2 n2 := rfl

/-- C1: for `tau > 0`, `_moments_match_numerical(obs, tau, v)` returns the
triple whose `mu_hat` is the optimizer's mode of the tilted product started at
`mu = v/tau` (with `sigma = sqrt(1/tau)`), whose `sigma2_hat` is
`1/(tau + d2nlog_mass_dgp2(mu_hat, obs))`, and whose `Z_hat` equals the
Laplace-integral formula `exp(-nlog_product(x*)) * sqrt(2*pi / H(x*))`
divided by the Gaussian normalizer `sigma * sqrt(2*pi)`, provided the mass
model is coherent at the mode (`mass = exp(-nlog_mass)` there). -/
theorem moments_match_numerical_spec (c : LikelihoodFunction) (obs tau v : ℝ)
    (htau : 0 < tau)
    (hcoh : c.mass (product_mode c obs (v/tau) (Real.sqrt (1/tau))) obs =
      Real.exp (-c.nlog_mass (product_mode c obs (v/tau) (Real.sqrt (1/tau))) obs)) :
    (moments_match_numerical c obs tau v).2.1 =
      product_mode c obs (v/tau) (Real.sqrt (1/tau)) ∧
    (moments_match_numerical c obs tau v).2.2 =
      1/(tau + c.d2nlog_mass_dgp2
        (product_mode c obs (v/tau) (Real.sqrt (1/tau))) obs) ∧
    (moments_match_numerical c obs tau v).1 =
      Real.exp (-nlog_product_scaled c
          (product_mode c obs (v/tau) (Real.sqrt (1/tau))) obs (v/tau)
          (Real.sqrt (1/tau))) *
        Real.sqrt (2 * Real.pi / d2nlog_product_dgp2 c
          (product_mode c obs (v/tau) (Real.sqrt (1/tau))) obs (v/tau)
          (Real.sqrt (1/tau))) /
        (Real.sqrt (1/tau) * Real.sqrt (2 * Real.pi)) := by
  refine ⟨rfl, rfl, ?_⟩
  have h1tau : (0:ℝ) < 1/tau := by positivity
  set x := product_mode c obs (v/tau) (Real.sqrt (1/tau)) with hx
  set c2 := c.d2nlog_mass_dgp2 x obs with hc2
  have hsq : Real.sqrt (1/tau) ^ 2 = 1/tau := Real.sq_sqrt h1tau.le
  have hH : d2nlog_product_dgp2 c x obs (v/tau) (Real.sqrt (1/tau)) = tau + c2 := by
    unfold d2nlog_product_dgp2
    rw [hsq, one_div_one_div]
  have hquad : nlog_product_scaled c x obs (v/tau) (Real.sqrt (1/tau)) =
      1/2 * tau * (x - v/tau)^2 + c.nlog_mass x obs := by
    unfold nlog_product_scaled
    rw [div_pow, hsq]
    field_simp
    ring
  have h2pi : (0:ℝ) < 2 * Real.pi := by positivity
  have hs2pi : Real.sqrt (2 * Real.pi) ≠ 0 :=
    (Real.sqrt_pos.mpr h2pi).ne'
  have hstau : Real.sqrt tau ≠ 0 := (Real.sqrt_pos.mpr htau).ne'
  have hsplit : Real.sqrt (2 * Real.pi / (tau + c2)) =
      Real.sqrt (2 * Real.pi) * Real.sqrt (1/(tau + c2)) := by
    rw [div_eq_mul_one_div, Real.sqrt_mul h2pi.le]
  have hinv : Real.sqrt (1/tau) = (Real.sqrt tau)⁻¹ := by
    rw [one_div, Real.sqrt_inv]
  have htsqrt : Real.sqrt (tau * (1/(tau + c2))) =
      Real.sqrt tau * Real.sqrt (1/(tau + c2)) :=
    Real.sqrt_mul htau.le _
  show Real.exp (-(1/2) * tau * (x - v/tau)^2) * c.mass x obs *
      Real.sqrt (tau * (1/(tau + c2))) = _
  rw [hH, hquad, hcoh, htsqrt, hsplit, hinv, neg_add, Real.exp_add]
  have harg : -(1/2 : ℝ) * tau * (x - v/tau)^2 = -(1/2 * tau * (x - v/tau)^2) := by
    ring
  rw [harg]
  set s2p := Real.sqrt (2 * Real.pi) with hs2pdef
  set st := Real.sqrt tau with hstdef
  set sh := Real.sqrt (1/(tau + c2)) with hshdef
  field_simp
  ring

/-- Witness for C1 at `testModel`, `obs = 0`, `tau = 1`, `v = 0`. -/
theorem moments_match_numerical_spec_witness :
    (moments_match_numerical testModel 0 1 0).2.1 =
      product_mode testModel 0 (0/1) (Real.sqrt (1/1)) ∧
    (moments_match_numerical testModel 0 1 0).2.2 =
      1/(1 + testModel.d2nlog_mass_dgp2
        (product_mode testModel 0 (0/1) (Real.sqrt (1/1))) 0) ∧
    (moments_match_numerical testModel 0 1 0).1 =
      Real.exp (-nlog_product_scaled testModel
          (product_mode testModel 0 (0/1) (Real.sqrt (1/1))) 0 (0/1)
          (Real.sqrt (1/1))) *
        Real.sqrt (2 * Real.pi / d2nlog_product_dgp2 testModel
          (product_mode testModel 0 (0/1) (Real.sqrt (1/1))) 0 (0/1)
          (Real.sqrt (1/1))) /
        (Real.sqrt (1/1) * Real.sqrt (2 * Real.pi)) :=
  moments_match_numerical_spec testModel 0 1 0 (by norm_num)
    (by simp [testModel])

/-- Variant of `testModel` with a mass model of constant negative-log curvature `-2`:
a legitimate instantiation of the capability surface of section 6 (which
requires no convexity of `nlog_mass`). -/
noncomputable def concaveModel : LikelihoodFunction :=
  { testModel with d2nlog_mass_dgp2 := fun _ _ => -2 }

/-- Counterexample to C2: at `obs = 0`, `tau = 1 > 0`, `v = 0` on
`concaveModel`, the code computes `sigma2_hat = 1/(1 + (-2)) = -1 < 0`:
without a precondition on the curvature `d2nlog_mass_dgp2` at the mode, the
returned `sigma2_hat` is not positive. -/
theorem moments_match_sigma2_neg_cex :
    ¬ (0 < (moments_match_numerical concaveModel 0 1 0).2.2 ∧
       0 ≤ (moments_match_numerical concaveModel 0 1 0).1) := by
  intro h
  have hval : (moments_match_numerical concaveModel 0 1 0).2.2 = -1 := by
    show 1/((1:ℝ) + concaveModel.d2nlog_mass_dgp2 _ 0) = -1
    norm_num [concaveModel]
  rw [hval] at h
  exact absurd h.1 (by norm_num)

/-- C2 amended: for `tau > 0`, **provided** the curvature of the mass model
at the mode keeps `tau + d2nlog_mass_dgp2(mu_hat, obs) > 0` and the mass
density is non-negative at the mode (section 6's interface guarantees
`mass >= 0`), `_moments_match_numerical` returns `sigma2_hat > 0` and
`Z_hat >= 0`. -/
theorem moments_match_pos (c : LikelihoodFunction) (obs tau v : ℝ)
    (htau : 0 < tau)
    (hcurv : 0 < tau + c.d2nlog_mass_dgp2
      (product_mode c obs (v/tau) (Real.sqrt (1/tau))) obs)
    (hmass : 0 ≤ c.mass
      (product_mode c obs (v/tau) (Real.sqrt (1/tau))) obs) :
    0 < (moments_match_numerical c obs tau v).2.2 ∧
    0 ≤ (moments_match_numerical c obs tau v).1 := by
  constructor
  · exact one_div_pos.mpr hcurv
  · exact mul_nonneg (mul_nonneg (Real.exp_pos _).le hmass) (Real.sqrt_nonneg _)

/-- Witness for the amended C2 at `testModel`, `obs = 0`, `tau = 1`, `v = 0`. -/
theorem moments_match_pos_witness :
    0 < (moments_match_numerical testModel 0 1 0).2.2 ∧
    0 ≤ (moments_match_numerical testModel 0 1 0).1 :=
  moments_match_pos testModel 0 1 0 (by norm_num) (by norm_num [testModel])
    (by norm_num [testModel])

/-- C3: the derivative builders return exactly the spec's formulas, and those
formulas are the true first and second derivatives of the corresponding
objectives whenever the mass model's supplied derivatives are true derivatives
(and `sigma > 0`, `mean(gp)` is nonzero so the log term is differentiable). -/
theorem derivative_builders_correct (c : LikelihoodFunction)
    (gp obs mu sigma : ℝ) (hsigma : 0 < sigma)
    (hm1 : HasDerivAt (fun g => c.nlog_mass g obs) (c.dnlog_mass_dgp gp obs) gp)
    (hm2 : HasDerivAt (fun g => c.dnlog_mass_dgp g obs) (c.d2nlog_mass_dgp2 gp obs) gp)
    (hmean : HasDerivAt c.mean (c.dmean_dgp gp) gp)
    (hmean2 : HasDerivAt c.dmean_dgp (c.d2mean_dgp2 gp) gp)
    (hne : c.mean gp ≠ 0) :
    dnlog_product_dgp c gp obs mu sigma =
      (gp - mu)/sigma^2 + c.dnlog_mass_dgp gp obs ∧
    d2nlog_product_dgp2 c gp obs mu sigma =
      1/sigma^2 + c.d2nlog_mass_dgp2 gp obs ∧
    dnlog_conditional_mean_dgp c gp mu sigma =
      (gp - mu)/sigma^2 - c.dmean_dgp gp / c.mean gp ∧
    d2nlog_conditional_mean_dgp2 c gp mu sigma =
      1/sigma^2 - c.d2mean_dgp2 gp / c.mean gp + (c.dmean_dgp gp / c.mean gp)^2 ∧
    HasDerivAt (fun g => nlog_product_scaled c g obs mu sigma)
      (dnlog_product_dgp c gp obs mu sigma) gp ∧
    HasDerivAt (fun g => dnlog_product_dgp c g obs mu sigma)
      (d2nlog_product_dgp2 c gp obs mu sigma) gp ∧
    HasDerivAt (fun g => nlog_conditional_mean_scaled c g mu sigma)
      (dnlog_conditional_mean_dgp c gp mu sigma) gp ∧
    HasDerivAt (fun g => dnlog_conditional_mean_dgp c g mu sigma)
      (d2nlog_conditional_mean_dgp2 c gp mu sigma) gp := by
  have hquad : HasDerivAt (fun g : ℝ => 1/2*((g - mu)/sigma)^2)
      ((gp - mu)/sigma^2) gp := by
    have h1 : HasDerivAt (fun g : ℝ => (g - mu)/sigma) (1/sigma) gp := by
      simpa using ((hasDerivAt_id gp).sub_const mu).div_const sigma
    have h2 := HasDerivAt.const_mul (1/2 : ℝ) (h1.pow 2)
    convert h2 using 1
    field_simp
    exact Or.inl (sq sigma).symm
  have hlin : HasDerivAt (fun g : ℝ => (g - mu)/sigma^2) (1/sigma^2) gp := by
    simpa using ((hasDerivAt_id gp).sub_const mu).div_const (sigma^2)
  refine ⟨rfl, rfl, rfl, rfl, ?_, ?_, ?_, ?_⟩
  · exact hquad.add hm1
  · exact hlin.add hm2
  · exact hquad.sub (hmean.log hne)
  · have hdiv : HasDerivAt (fun g => c.dmean_dgp g / c.mean g)
        ((c.d2mean_dgp2 gp * c.mean gp - c.dmean_dgp gp * c.dmean_dgp gp) /
          c.mean gp ^ 2) gp := hmean2.div hmean hne
    have h := hlin.sub hdiv
    convert h using 1
    show (1:ℝ)/sigma^2 - c.d2mean_dgp2 gp / c.mean gp +
        (c.dmean_dgp gp / c.mean gp)^2 = _
    field_simp
    ring

/-- Witness for C3 at `testModel` (constant mass model, unit mean),
`gp = 1`, `obs = 0`, `mu = 0`, `sigma = 1`. -/
theorem derivative_builders_correct_witness :
    dnlog_product_dgp testModel 1 0 0 1 =
      (1 - 0)/(1:ℝ)^2 + testModel.dnlog_mass_dgp 1 0 ∧
    d2nlog_product_dgp2 testModel 1 0 0 1 =
      1/(1:ℝ)^2 + testModel.d2nlog_mass_dgp2 1 0 ∧
    dnlog_conditional_mean_dgp testModel 1 0 1 =
      (1 - 0)/(1:ℝ)^2 - testModel.dmean_dgp 1 / testModel.mean 1 ∧
    d2nlog_conditional_mean_dgp2 testModel 1 0 1 =
      1/(1:ℝ)^2 - testModel.d2mean_dgp2 1 / testModel.mean 1 +
        (testModel.dmean_dgp 1 / testModel.mean 1)^2 ∧
    HasDerivAt (fun g => nlog_product_scaled testModel g 0 0 1)
      (dnlog_product_dgp testModel 1 0 0 1) 1 ∧
    HasDerivAt (fun g => dnlog_product_dgp testModel g 0 0 1)
      (d2nlog_product_dgp2 testModel 1 0 0 1) 1 ∧
    HasDerivAt (fun g => nlog_conditional_mean_scaled testModel g 0 1)
      (dnlog_conditional_mean_dgp testModel 1 0 1) 1 ∧
    HasDerivAt (fun g => dnlog_conditional_mean_dgp testModel g 0 1)
      (d2nlog_conditional_mean_dgp2 testModel 1 0 1) 1 :=
  derivative_builders_correct testModel 1 0 0 1 (by norm_num)
    (by simpa [testModel] using hasDerivAt_const (1:ℝ) (0:ℝ))
    (by simpa [testModel] using hasDerivAt_const (1:ℝ) (0:ℝ))
    (by simpa [testModel] using hasDerivAt_const (1:ℝ) (1:ℝ))
    (by simpa [testModel] using hasDerivAt_const (1:ℝ) (0:ℝ))
    (by norm_num [testModel])

/-- C4 amended: `predictive_variance(mu, sigma)` (with `predictive_mean=None`)
returns exactly `exp_var + (predictive_mean_sq - predictive_mean**2)` — the
Laplace integral of the conditional-variance objective plus the
variance-of-conditional-mean term — with no clamping or flagging of negative
results. -/
theorem predictive_variance_decomp (c : LikelihoodFunction) (mu sigma : ℝ) :
    predictive_variance c mu sigma none =
      Real.exp (-nlog_exp_conditional_variance_scaled c
          (c.minimize (fun g => nlog_exp_conditional_variance_scaled c g mu sigma)
            (fun g => dnlog_exp_conditional_variance_dgp c g mu sigma)
            (fun g => d2nlog_exp_conditional_variance_dgp2 c g mu sigma)
            (c.variance mu)) mu sigma) /
        (Real.sqrt (d2nlog_exp_conditional_variance_dgp2 c
          (c.minimize (fun g => nlog_exp_conditional_variance_scaled c g mu sigma)
            (fun g => dnlog_exp_conditional_variance_dgp c g mu sigma)
            (fun g => d2nlog_exp_conditional_variance_dgp2 c g mu sigma)
            (c.variance mu)) mu sigma) * sigma) +
      (predictive_mean_sq c mu sigma -
        (predictive_mean_numerical c mu sigma)^2) := rfl

/-- The conditional-mean function of the mass model used against C4:
`exp((3/8)g^2 - (1/4)g^4)`, smooth and everywhere positive. -/
noncomputable def negVarMean (g : ℝ) : ℝ := Real.exp ((3/8)*g^2 - (1/4)*g^4)

section
open Classical

/-- A mass model on which the source returns a negative predictive variance:
conditional mean `negVarMean` with its true first and second derivatives,
constant unit conditional variance.  The `minimize` field returns a point
where the supplied gradient vanishes and the supplied curvature is positive
(probing `0`, then `1/2`), else the start point — on the three objectives
`predictive_variance` builds here this reproduces the exact Newton-CG limits:
the conditional-mean objective `g^2/8 + g^4/4` and the conditional-variance
objective `g^2/2` are strictly convex with unique stationary point `0`, and
the squared-mean objective `-g^2/4 + g^4/2`, started at `mean(0) = 1`,
descends to its local minimum `1/2` (its other stationary point `0` is a
local maximum, which a second-order descent method does not return). -/
noncomputable def negVarModel : LikelihoodFunction :=
  { testModel with
    mean := negVarMean
    dmean_dgp := fun g => ((3/4)*g - g^3) * negVarMean g
    d2mean_dgp2 := fun g => (((3/4) - 3*g^2) + ((3/4)*g - g^3)^2) * negVarMean g
    minimize := fun _ fp fpp x0 =>
      if fp 0 = 0 ∧ 0 < fpp 0 then 0
      else if fp (1/2) = 0 ∧ 0 < fpp (1/2) then 1/2
      else x0 }

end

/-- Counterexample to C4: on `negVarModel` at cavity `mu = 0`, `sigma = 1`,
the modes found are `0` (conditional-variance and conditional-mean
objectives) and `1/2` (squared-mean objective), and the value returned by
`predictive_variance` is `1 + (exp(1/32) - 4) = exp(1/32) - 3 < 0`: a
negative variance is returned, neither clamped nor flagged. -/
theorem predictive_variance_neg_cex :
    predictive_variance negVarModel 0 1 none < 0 := by
  classical
  have hE : ∀ g : ℝ, negVarMean g ≠ 0 := fun g => Real.exp_ne_zero _
  have hr1 : ∀ g : ℝ, negVarModel.dmean_dgp g / negVarModel.mean g =
      (3/4)*g - g^3 := by
    intro g
    show ((3/4)*g - g^3) * negVarMean g / negVarMean g = _
    rw [mul_div_assoc, div_self (hE g), mul_one]
  have hr2 : ∀ g : ℝ, negVarModel.d2mean_dgp2 g / negVarModel.mean g =
      ((3/4) - 3*g^2) + ((3/4)*g - g^3)^2 := by
    intro g
    show (((3/4) - 3*g^2) + ((3/4)*g - g^3)^2) * negVarMean g / negVarMean g = _
    rw [mul_div_assoc, div_self (hE g), mul_one]
  have hlog : ∀ g : ℝ, Real.log (negVarModel.mean g) = (3/8)*g^2 - (1/4)*g^4 :=
    fun g => Real.log_exp _
  have e1 : dnlog_conditional_mean_dgp negVarModel 0 0 1 = 0 := by
    unfold dnlog_conditional_mean_dgp
    rw [hr1]
    norm_num
  have e2 : d2nlog_conditional_mean_dgp2 negVarModel 0 0 1 = 1/4 := by
    unfold d2nlog_conditional_mean_dgp2
    rw [hr1, hr2]
    norm_num
  have e3 : nlog_conditional_mean_scaled negVarModel 0 0 1 = 0 := by
    unfold nlog_conditional_mean_scaled
    rw [hlog]
    norm_num
  have e4 : dnlog_exp_conditional_mean_sq_dgp negVarModel 0 0 1 = 0 := by
    unfold dnlog_exp_conditional_mean_sq_dgp
    rw [mul_div_assoc, hr1]
    norm_num
  have e5 : d2nlog_exp_conditional_mean_sq_dgp2 negVarModel 0 0 1 = -(1/2) := by
    unfold d2nlog_exp_conditional_mean_sq_dgp2
    rw [hr1, hr2]
    norm_num
  have e6 : dnlog_exp_conditional_mean_sq_dgp negVarModel (1/2) 0 1 = 0 := by
    unfold dnlog_exp_conditional_mean_sq_dgp
    rw [mul_div_assoc, hr1]
    norm_num
  have e7 : d2nlog_exp_conditional_mean_sq_dgp2 negVarModel (1/2) 0 1 = 1 := by
    unfold d2nlog_exp_conditional_mean_sq_dgp2
    rw [hr1, hr2]
    norm_num
  have e8 : nlog_exp_conditional_mean_sq_scaled negVarModel (1/2) 0 1 = -(1/32) := by
    unfold nlog_exp_conditional_mean_sq_scaled
    rw [hlog]
    norm_num
  have e9 : dnlog_exp_conditional_variance_dgp negVarModel 0 0 1 = 0 := by
    show ((0:ℝ) - 0)/1^2 - (0:ℝ)/1 = 0
    norm_num
  have e10 : d2nlog_exp_conditional_variance_dgp2 negVarModel 0 0 1 = 1 := by
    show (1:ℝ)/1^2 - (0:ℝ)/1 + ((0:ℝ)/1)^2 = 1
    norm_num
  have e11 : nlog_exp_conditional_variance_scaled negVarModel 0 0 1 = 0 := by
    show (1:ℝ)/2*((0 - 0)/1)^2 - Real.log 1 = 0
    norm_num
  have hVmin : negVarModel.minimize
      (fun g => nlog_exp_conditional_variance_scaled negVarModel g 0 1)
      (fun g => dnlog_exp_conditional_variance_dgp negVarModel g 0 1)
      (fun g => d2nlog_exp_conditional_variance_dgp2 negVarModel g 0 1)
      (negVarModel.variance 0) = 0 := by
    show (if dnlog_exp_conditional_variance_dgp negVarModel 0 0 1 = 0 ∧
          0 < d2nlog_exp_conditional_variance_dgp2 negVarModel 0 0 1 then (0:ℝ)
        else if dnlog_exp_conditional_variance_dgp negVarModel (1/2) 0 1 = 0 ∧
          0 < d2nlog_exp_conditional_variance_dgp2 negVarModel (1/2) 0 1 then 1/2
        else negVarModel.variance 0) = 0
    rw [if_pos ⟨e9, by rw [e10]; norm_num⟩]
  have hMmin : negVarModel.minimize
      (fun g => nlog_conditional_mean_scaled negVarModel g 0 1)
      (fun g => dnlog_conditional_mean_dgp negVarModel g 0 1)
      (fun g => d2nlog_conditional_mean_dgp2 negVarModel g 0 1)
      (negVarModel.mean 0) = 0 := by
    show (if dnlog_conditional_mean_dgp negVarModel 0 0 1 = 0 ∧
          0 < d2nlog_conditional_mean_dgp2 negVarModel 0 0 1 then (0:ℝ)
        else if dnlog_conditional_mean_dgp negVarModel (1/2) 0 1 = 0 ∧
          0 < d2nlog_conditional_mean_dgp2 negVarModel (1/2) 0 1 then 1/2
        else negVarModel.mean 0) = 0
    rw [if_pos ⟨e1, by rw [e2]; norm_num⟩]
  have hSneg : ¬ (dnlog_exp_conditional_mean_sq_dgp negVarModel 0 0 1 = 0 ∧
      0 < d2nlog_exp_conditional_mean_sq_dgp2 negVarModel 0 0 1) := by
    rw [e4, e5]
    norm_num
  have hSmin : negVarModel.minimize
      (fun g => nlog_exp_conditional_mean_sq_scaled negVarModel g 0 1)
      (fun g => dnlog_exp_conditional_mean_sq_dgp negVarModel g 0 1)
      (fun g => d2nlog_exp_conditional_mean_sq_dgp2 negVarModel g 0 1)
      (negVarModel.mean 0) = 1/2 := by
    show (if dnlog_exp_conditional_mean_sq_dgp negVarModel 0 0 1 = 0 ∧
          0 < d2nlog_exp_conditional_mean_sq_dgp2 negVarModel 0 0 1 then (0:ℝ)
        else if dnlog_exp_conditional_mean_sq_dgp negVarModel (1/2) 0 1 = 0 ∧
          0 < d2nlog_exp_conditional_mean_sq_dgp2 negVarModel (1/2) 0 1 then 1/2
        else negVarModel.mean 0) = 1/2
    rw [if_neg hSneg, if_pos ⟨e6, by rw [e7]; norm_num⟩]
  have h14 : Real.sqrt ((1:ℝ)/4) = 1/2 := by
    rw [show (1:ℝ)/4 = (1/2)^2 by norm_num,
      Real.sqrt_sq (by norm_num : (0:ℝ) ≤ 1/2)]
  have heq : predictive_variance negVarModel 0 1 none =
      Real.exp (1/32) - 3 := by
    simp only [predictive_variance, predictive_mean_sq, predictive_mean_numerical]
    rw [hVmin, hSmin, hMmin, e3, e8, e11, e2, e7, e10, h14]
    rw [Real.sqrt_one]
    norm_num
    ring
  rw [heq]
  have h1 : Real.exp (1/32 : ℝ) < Real.exp 1 := Real.exp_lt_exp.mpr (by norm_num)
  have h2 : Real.exp 1 < 2.7182818286 := Real.exp_one_lt_d9
  linarith

/-- A model that pins down which scale `predictive_values` hands to the
external normal-quantile: conditional mean `exp(gp)` (so the predictive mean
distinguishes evaluation points), optimizer returning `0`, and concrete
standard quantile `p := 4p - 2`. -/
noncomputable def quantileModel : LikelihoodFunction :=
  { testModel with
    mean := Real.exp
    dmean_dgp := Real.exp
    d2mean_dgp2 := Real.exp
    minimize := fun _ _ _ _ => 0
    stdPpf := fun p => 4*p - 2 }

/-- Counterexample to C9: on `quantileModel` with the scalar cavity pair
`mu = 0`, `var = 4` (so `s = 2`), the code's lower-quantile entry is the
predictive mean at `ppf(.025, m, s^2)` (scale `= 4`, the variance), which
differs from the predictive mean at the cavity quantile `ppf(.025, m, s)`
(scale `= 2`, the standard deviation). -/
theorem predictive_values_quantile_cex :
    (predictive_values quantileModel (PVInput.scalar 0 4) true 5000).2.2.1 ≠
      [[predictive_mean_numerical quantileModel
        (normPpf quantileModel (25/1000) 0 (Real.sqrt 4)) (Real.sqrt 4)]] := by
  have hs4 : Real.sqrt 4 = 2 := by
    rw [show (4:ℝ) = 2^2 by norm_num, Real.sqrt_sq (by norm_num : (0:ℝ) ≤ 2)]
  have h14 : Real.sqrt ((1:ℝ)/4) = 1/2 := by
    rw [show (1:ℝ)/4 = (1/2)^2 by norm_num,
      Real.sqrt_sq (by norm_num : (0:ℝ) ≤ 1/2)]
  have hcode : (predictive_values quantileModel (PVInput.scalar 0 4) true 5000).2.2.1 =
      [[Real.exp (-(361/50))]] := by
    norm_num [predictive_values, pv_entry, col, predictive_mean_numerical,
      normPpf, nlog_conditional_mean_scaled, dnlog_conditional_mean_dgp,
      d2nlog_conditional_mean_dgp2, quantileModel, testModel, hs4, h14,
      Real.log_exp, Real.exp_zero]
  have hclaim : predictive_mean_numerical quantileModel
      (normPpf quantileModel (25/1000) 0 (Real.sqrt 4)) (Real.sqrt 4) =
      Real.exp (-(361/200)) := by
    norm_num [predictive_mean_numerical, normPpf, nlog_conditional_mean_scaled,
      dnlog_conditional_mean_dgp, d2nlog_conditional_mean_dgp2, quantileModel,
      testModel, hs4, h14, Real.log_exp, Real.exp_zero]
  rw [hcode, hclaim]
  have hne : Real.exp (-(361/50)) ≠ Real.exp (-(361/200)) := by
    intro h
    have := Real.exp_injective h
    norm_num at this
  simp [hne]

/-- C9 amended: for each input cavity pair `(m, v)` with `s = sqrt(v)`, the
lower and upper interval entries of `predictive_values` are the predictive
mean evaluated at the external normal quantile called with location `m` and
scale `s^2` — the cavity **variance**, as the code passes `s**2` — at levels
2.5% and 97.5%, with the same sigma `s` passed to `predictive_mean`. -/
theorem predictive_values_quantile_formula (c : LikelihoodFunction)
    (ms vs : List ℝ) (sample : Bool) (n : ℕ) (i : ℕ) (m v : ℝ)
    (hm : ms[i]? = some m) (hv : vs[i]? = some v) :
    (predictive_values c (.vector ms vs) sample n).2.2.1[i]? =
      some [predictive_mean_numerical c
        (normPpf c (25/1000) m (Real.sqrt v ^ 2)) (Real.sqrt v)] ∧
    (predictive_values c (.vector ms vs) sample n).2.2.2[i]? =
      some [predictive_mean_numerical c
        (normPpf c (975/1000) m (Real.sqrt v ^ 2)) (Real.sqrt v)] := by
  have hz := zip_map_sqrt_get ms vs i m v hm hv
  simp [predictive_values, col, List.getElem?_map, hz, pv_entry]

/-- Witness for the amended C9 at `testModel`, `mu = [0]`, `var = [4]`,
index `0`. -/
theorem predictive_values_quantile_formula_witness :
    (predictive_values testModel (PVInput.vector [0] [4]) true 5000).2.2.1[0]? =
      some [predictive_mean_numerical testModel
        (normPpf testModel (25/1000) 0 (Real.sqrt 4 ^ 2)) (Real.sqrt 4)] ∧
    (predictive_values testModel (PVInput.vector [0] [4]) true 5000).2.2.2[0]? =
      some [predictive_mean_numerical testModel
        (normPpf testModel (975/1000) 0 (Real.sqrt 4 ^ 2)) (Real.sqrt 4)] :=
  predictive_values_quantile_formula testModel [0] [4] true 5000 0 0 4 rfl rfl

end GPy
